import Mathlib

/-!
# Verification of the f1-live-telemetry core

Shallow embedding of the telemetry core of the `f1-live-telemetry`
repository, together with theorems settling the frozen specification
claims.

Conventions used throughout:
* Python integers are embedded as `Int` (or `Nat` where the source value
  is a non-negative wire field).
* Raw byte buffers are embedded as `List Nat`, each element a byte value.
* IEEE-754 float fields read from the wire are kept as their 32-bit
  little-endian bit patterns (`Nat`); no claim depends on their numeric
  interpretation.
* Wall-clock / elapsed-time and distance values are embedded as `Rat`.
* A Python function that can raise past its own boundary is embedded with
  an explicit `raised` outcome; `Option` models partial reads.
-/

/-! ## Lap segmentation engine (`telemetry/lap_buffer.py`) -/

/-- State of `LapBuffer`: the current lap id (if any sample was seen) and
the ordered in-progress-lap sample buffer.  The sample payload type is a
parameter; the source stores dicts and never inspects them. -/
structure LapBufferState (α : Type) where
  current_lap_id : Option Int
  samples : List α
  deriving Repr, DecidableEq

/-- Initial `LapBuffer` state (`__init__`): no current lap, empty buffer. -/
def initLapBuffer {α : Type} : LapBufferState α := ⟨none, []⟩

/-- Embedding of `LapBuffer.add_sample` (lap_buffer.py lines 20-67).
Returns the updated state and the at-most-one `(lap_id, samples)` record
passed to `on_lap_complete` during the call.

Mirrors the source: if `current_lap_id` is `None` it is first set to the
incoming `lap_id` (so the first sample falls into the equal-lap branch);
an equal lap id appends; a larger lap id emits the non-empty buffer for
the old lap and starts a new buffer holding only the arriving sample; a
smaller lap id discards the buffer, emitting nothing, and starts a new
buffer holding only the arriving sample. -/
def addSample {α : Type} (st : LapBufferState α) (lap_id : Int) (s : α) :
    LapBufferState α × Option (Int × List α) :=
  let cur := st.current_lap_id.getD lap_id
  if lap_id = cur then
    ({ current_lap_id := some cur, samples := st.samples ++ [s] }, none)
  else if cur < lap_id then
    ({ current_lap_id := some lap_id, samples := [s] },
     if st.samples.isEmpty then none else some (cur, st.samples))
  else
    ({ current_lap_id := some lap_id, samples := [s] }, none)

/-- Feed a list of `(lap_id, sample)` pairs through `add_sample`,
collecting every record handed to `on_lap_complete`, in call order. -/
def runLapBuffer {α : Type} (st : LapBufferState α) :
    List (Int × α) → LapBufferState α × List (Int × List α)
  | [] => (st, [])
  | (lap_id, s) :: rest =>
    let r := addSample st lap_id s
    let rr := runLapBuffer r.1 rest
    (rr.1, r.2.toList ++ rr.2)

/-- C1: feeding `LapBuffer` the lap-id sequence `[1,1,1,2,2,3]` invokes
`on_lap_complete` exactly twice, first with lap 1 and its three samples,
then with lap 2 and its two samples, and the boundary sample always lands
in the new lap's buffer (lap 3 holds exactly `s6`, unflushed). -/
theorem lapBuffer_seq_111223_emits_lap1_lap2 {α : Type}
    (s1 s2 s3 s4 s5 s6 : α) :
    runLapBuffer initLapBuffer
        [(1, s1), (1, s2), (1, s3), (2, s4), (2, s5), (3, s6)] =
      ({ current_lap_id := some 3, samples := [s6] },
       [(1, [s1, s2, s3]), (2, [s4, s5])]) := by
  simp [runLapBuffer, addSample, initLapBuffer]

/-- Witness for C1 at concrete samples. -/
theorem lapBuffer_seq_111223_emits_lap1_lap2_witness :
    runLapBuffer initLapBuffer
        [(1, 10), (1, 20), (1, 30), (2, 40), (2, 50), (3, 60)] =
      ({ current_lap_id := some 3, samples := [60] },
       [(1, [10, 20, 30]), (2, [40, 50])]) :=
  lapBuffer_seq_111223_emits_lap1_lap2 10 20 30 40 50 60

/-- C3: a regression (`lap_id` strictly below `current_lap_id`) on a
non-empty buffer emits nothing, resets `current_lap_id` to the new id and
replaces the buffer with the arriving sample alone; in particular the
sequence `[2,2,1,1]` emits no record at all (so none for lap 2). -/
theorem lapBuffer_regression_discards {α : Type}
    (st : LapBufferState α) (c : Int) (hc : st.current_lap_id = some c)
    (hne : st.samples ≠ []) (lap_id : Int) (hlt : lap_id < c) (s : α)
    (a b d e : α) :
    addSample st lap_id s =
        ({ current_lap_id := some lap_id, samples := [s] }, none) ∧
      (runLapBuffer initLapBuffer [(2, a), (2, b), (1, d), (1, e)]).2 = [] := by
  have h1 : ¬ lap_id = c := by omega
  have h2 : ¬ c < lap_id := by omega
  constructor
  · simp [addSample, hc, h1, h2]
  · simp [runLapBuffer, addSample, initLapBuffer]

/-- Witness for C3 at a concrete regressing state. -/
theorem lapBuffer_regression_discards_witness :
    addSample (⟨some 2, [5]⟩ : LapBufferState Nat) 1 9 =
        ({ current_lap_id := some 1, samples := [9] }, none) ∧
      (runLapBuffer initLapBuffer [(2, 11), (2, 12), (1, 13), (1, 14)]).2 =
        ([] : List (Int × List Nat)) :=
  lapBuffer_regression_discards ⟨some 2, [5]⟩ 2 rfl (by decide) 1 (by decide)
    9 11 12 13 14

/-- C10: after every `add_sample` call, `current_lap_id` is set to the lap
id of that call and the internal buffer is non-empty (it holds at least
the just-arrived sample) on every code path. -/
theorem lapBuffer_post_invariant {α : Type}
    (st : LapBufferState α) (lap_id : Int) (s : α) :
    (addSample st lap_id s).1.current_lap_id = some lap_id ∧
      (addSample st lap_id s).1.samples ≠ [] := by
  by_cases h1 : lap_id = st.current_lap_id.getD lap_id
  · simp [addSample, if_pos h1, ← h1]
  · by_cases h2 : st.current_lap_id.getD lap_id < lap_id <;>
      simp [addSample, if_neg h1, h2]

/-- Witness for C10 at a concrete state. -/
theorem lapBuffer_post_invariant_witness :
    (addSample (⟨some 4, [7]⟩ : LapBufferState Nat) 4 8).1.current_lap_id
        = some 4 ∧
      (addSample (⟨some 4, [7]⟩ : LapBufferState Nat) 4 8).1.samples ≠ [] :=
  lapBuffer_post_invariant ⟨some 4, [7]⟩ 4 8

/-! ## ACC packet parser (`telemetry/acc_backend.py`, `AccPacketParser`)

`struct.unpack_from` raises `struct.error` when the buffer is too short
for the requested fixed-width field at the given offset; the readers
below return `none` exactly in that case.  Fields are little-endian. -/

/-- Byte at index `i`, defaulting to 0; only used where a preceding
bounds guard in the source makes the access in range. -/
def byteD (data : List Nat) (i : Nat) : Nat := (data.get? i).getD 0

/-- `struct.unpack_from` with format B (one byte) at offset `i`. -/
def unpackU8 (data : List Nat) (i : Nat) : Option Nat :=
  if i + 1 ≤ data.length then some (byteD data i) else none

/-- `struct.unpack_from` with format less-than H (u16 LE) at offset `i`. -/
def unpackU16 (data : List Nat) (i : Nat) : Option Nat :=
  if i + 2 ≤ data.length then some (byteD data i + 256 * byteD data (i + 1))
  else none

/-- `struct.unpack_from` with format less-than I (u32 LE) at offset `i`;
also used for f32 fields, whose value is kept as its raw bit pattern. -/
def unpackU32 (data : List Nat) (i : Nat) : Option Nat :=
  if i + 4 ≤ data.length then
    some (byteD data i + 256 * byteD data (i + 1) +
          65536 * byteD data (i + 2) + 16777216 * byteD data (i + 3))
  else none

/-- Embedding of `AccPacketParser.read_string` (acc_backend.py lines
47-60): a 2-byte LE length prefix followed by that many string bytes;
either bound failing yields an empty string without advancing past the
failed part.  String values stay as their byte lists (the source's lossy
UTF-8 decode never fails). -/
def read_string (data : List Nat) (offset : Nat) : List Nat × Nat :=
  if offset + 2 > data.length then ([], offset)
  else
    let len := byteD data offset + 256 * byteD data (offset + 1)
    if offset + 2 + len > data.length then ([], offset + 2)
    else ((data.drop (offset + 2)).take len, offset + 2 + len)

/-- Outcome of running one Python parser call: either a returned value or
an exception escaping the call. -/
inductive ParseOutcome (α : Type) : Type where
  | raised : ParseOutcome α
  | value : α → ParseOutcome α
  deriving Repr, DecidableEq

/-- Result dict of `parse_registration_result`.  The too-short branch
returns a dict carrying only `success` and `error`; `connection_id` is
`none` there. -/
structure RegResultP where
  success : Bool
  connection_id : Option Nat := none
  readonly : Bool := false
  error : List Nat := []
  deriving Repr, DecidableEq

/-- ASCII bytes of the literal "Packet too short". -/
def packetTooShortBytes : List Nat :=
  [80, 97, 99, 107, 101, 116, 32, 116, 111, 111, 32, 115, 104, 111, 114,
   116]

/-- Embedding of `AccPacketParser.parse_registration_result`
(acc_backend.py lines 62-79).  The guard admits any buffer of length at
least 5, but the success flag is unpacked at offset 5, which needs length
at least 6: on a 5-byte buffer the unpack raises. -/
def parse_registration_result (data : List Nat) : ParseOutcome RegResultP :=
  if data.length < 5 then
    .value { success := false, error := packetTooShortBytes }
  else
    match unpackU32 data 1, unpackU8 data 5 with
    | some cid, some sb =>
      let is_readonly := if 6 < data.length then byteD data 6 == 1 else false
      let error_msg := if 7 < data.length then (read_string data 7).1 else []
      .value { success := sb == 1, connection_id := some cid,
               readonly := is_readonly, error := error_msg }
    | _, _ => .raised

/-- Parsed fields of a `RealtimeCarUpdate` packet.  Float fields hold
their raw 32-bit LE bit patterns. -/
structure CarUpdateP where
  car_index : Nat := 0
  driver_index : Nat := 0
  gear : Int := 0
  world_pos_x : Nat := 0
  world_pos_y : Nat := 0
  world_pos_z : Nat := 0
  velocity : Nat := 0
  position : Nat := 0
  track_position : Nat := 0
  spline_position : Nat := 0
  laps : Nat := 0
  delta : Nat := 0
  best_session_lap_ms : Nat := 0
  last_lap_ms : Nat := 0
  current_lap_ms : Nat := 0
  kmh : Nat := 0
  cup_position : Nat := 0
  deriving Repr, DecidableEq

/-- Embedding of `AccPacketParser.parse_realtime_car_update`
(acc_backend.py lines 124-221).  A buffer shorter than 100 bytes yields
the empty dict (`value none`); otherwise the fixed-offset reads run in
source order (gear is the raw byte at offset 6 minus 1; one byte at
offset 51 is skipped without a read). -/
def parse_realtime_car_update (data : List Nat) :
    ParseOutcome (Option CarUpdateP) :=
  if data.length < 100 then .value none
  else
    match unpackU16 data 1 with
    | none => .raised
    | some car_index =>
    match unpackU16 data 3 with
    | none => .raised
    | some driver_index =>
    match unpackU8 data 5 with
    | none => .raised
    | some _driver_count =>
    match unpackU8 data 6 with
    | none => .raised
    | some gear_raw =>
    match unpackU32 data 7 with
    | none => .raised
    | some wx =>
    match unpackU32 data 11 with
    | none => .raised
    | some wy =>
    match unpackU32 data 15 with
    | none => .raised
    | some wz =>
    match unpackU32 data 19 with
    | none => .raised
    | some vel =>
    match unpackU16 data 23 with
    | none => .raised
    | some pos =>
    match unpackU32 data 25 with
    | none => .raised
    | some track_pos =>
    match unpackU32 data 29 with
    | none => .raised
    | some spline =>
    match unpackU16 data 33 with
    | none => .raised
    | some laps =>
    match unpackU32 data 35 with
    | none => .raised
    | some delta =>
    match unpackU32 data 39 with
    | none => .raised
    | some best =>
    match unpackU32 data 43 with
    | none => .raised
    | some lastL =>
    match unpackU32 data 47 with
    | none => .raised
    | some curL =>
    match unpackU16 data 52 with
    | none => .raised
    | some kmh =>
    match unpackU16 data 54 with
    | none => .raised
    | some cup =>
    match unpackU8 data 56 with
    | none => .raised
    | some _track_status =>
      .value (some
        { car_index := car_index, driver_index := driver_index,
          gear := (gear_raw : Int) - 1, world_pos_x := wx,
          world_pos_y := wy, world_pos_z := wz, velocity := vel,
          position := pos, track_position := track_pos,
          spline_position := spline, laps := laps, delta := delta,
          best_session_lap_ms := best, last_lap_ms := lastL,
          current_lap_ms := curL, kmh := kmh, cup_position := cup })

/-- C4: the packet decoders reject short buffers without reading past the
end.  This fails for `parse_registration_result`: its guard admits any
buffer of length at least 5, yet the success flag sits at offset 5, so a
5-byte registration-result packet raises `struct.error` instead of
returning the explicit too-short result.  `parse_realtime_car_update`
behaves as claimed: the spec's 3-byte example yields the empty dict. -/
theorem short_packet_registration_raises :
    parse_registration_result [1, 0, 0, 0, 0] = .raised ∧
      parse_realtime_car_update [3, 0, 0] = .value none := by
  constructor <;> rfl

/-! ## Shared-memory adapter (`telemetry/ac_shared_memory.py`) -/

/-- Embedding of the gear conversion in `AcTelemetryWorker.run`
(ac_shared_memory.py lines 263-269): raw 0 is reverse (-1), raw 1 is
neutral (0), anything else maps to `raw - 1`. -/
def acDisplayGear (raw_gear : Int) : Int :=
  if raw_gear = 0 then -1
  else if raw_gear = 1 then 0
  else raw_gear - 1

/-- Every fixed-offset read of `parse_realtime_car_update` lies below
offset 57, so on a buffer of at least 100 bytes the parse succeeds and
its gear field is the raw byte at offset 6 minus one. -/
theorem parse_realtime_car_update_complete (data : List Nat)
    (h : 100 ≤ data.length) :
    ∃ r, parse_realtime_car_update data = .value (some r) ∧
      r.gear = (byteD data 6 : Int) - 1 := by
  have h100 : ¬ data.length < 100 := by omega
  have h3 : 1 + 2 ≤ data.length := by omega
  have h5 : 3 + 2 ≤ data.length := by omega
  have h6 : 5 + 1 ≤ data.length := by omega
  have h7 : 6 + 1 ≤ data.length := by omega
  have h11 : 7 + 4 ≤ data.length := by omega
  have h15 : 11 + 4 ≤ data.length := by omega
  have h19 : 15 + 4 ≤ data.length := by omega
  have h23 : 19 + 4 ≤ data.length := by omega
  have h25 : 23 + 2 ≤ data.length := by omega
  have h29 : 25 + 4 ≤ data.length := by omega
  have h33 : 29 + 4 ≤ data.length := by omega
  have h35 : 33 + 2 ≤ data.length := by omega
  have h39 : 35 + 4 ≤ data.length := by omega
  have h43 : 39 + 4 ≤ data.length := by omega
  have h47 : 43 + 4 ≤ data.length := by omega
  have h51 : 47 + 4 ≤ data.length := by omega
  have h54 : 52 + 2 ≤ data.length := by omega
  have h56 : 54 + 2 ≤ data.length := by omega
  have h57 : 56 + 1 ≤ data.length := by omega
  simp only [parse_realtime_car_update, unpackU16, unpackU8, unpackU32,
    if_neg h100, if_pos h3, if_pos h5, if_pos h6, if_pos h7, if_pos h11,
    if_pos h15, if_pos h19, if_pos h23, if_pos h25, if_pos h29,
    if_pos h33, if_pos h35, if_pos h39, if_pos h43, if_pos h47,
    if_pos h51, if_pos h54, if_pos h56, if_pos h57]
  exact ⟨_, rfl, rfl⟩

/-- C5: the shared-memory adapter converts raw gear by 0 to -1, 1 to 0,
and n to n-1 for n at least 2, while the UDP car-update decoder converts
gear as the raw byte (offset 6) minus 1, giving the canonical convention
-1 reverse, 0 neutral, N forward. -/
theorem gear_conversion_canonical (n : Int) (hn : 2 ≤ n)
    (data : List Nat) (hlen : 100 ≤ data.length) :
    acDisplayGear 0 = -1 ∧ acDisplayGear 1 = 0 ∧ acDisplayGear n = n - 1 ∧
      ∃ r, parse_realtime_car_update data = .value (some r) ∧
        r.gear = (byteD data 6 : Int) - 1 := by
  have h1 : ¬ n = 0 := by omega
  have h2 : ¬ n = 1 := by omega
  exact ⟨by simp [acDisplayGear], by simp [acDisplayGear],
    by simp [acDisplayGear, h1, h2],
    parse_realtime_car_update_complete data hlen⟩

/-- Witness for C5 at gear raw value 5 and a concrete 100-byte packet. -/
theorem gear_conversion_canonical_witness :
    acDisplayGear 0 = -1 ∧ acDisplayGear 1 = 0 ∧
      acDisplayGear 5 = 5 - 1 ∧
      ∃ r, parse_realtime_car_update (List.replicate 100 0) =
          .value (some r) ∧
        r.gear = (byteD (List.replicate 100 0) 6 : Int) - 1 :=
  gear_conversion_canonical 5 (by decide) (List.replicate 100 0) (by simp)

/-! ## ACC protocol session (`telemetry/acc_backend.py`,
`AccTelemetryWorker`)

Worker-level state observable in the claims: the stored `connection_id`
and the `registered` flag of the run loop.  Protocol strings are taken
here in their decoded form (the parser's lossy UTF-8 decode never
fails). -/

/-- Connection-related state of `AccTelemetryWorker.run`. -/
structure AccConnState where
  connection_id : Option Nat
  registered : Bool
  deriving Repr, DecidableEq

/-- Decoded view of a registration-result dict as consumed by the run
loop (the parser always supplies `success`, `connection_id`, `error`). -/
structure RegResultView where
  success : Bool
  connection_id : Nat
  error : String
  deriving Repr, DecidableEq

/-- Outbound requests issued by the run loop after a successful
registration. -/
inductive AccRequest : Type where
  | requestTrackData
  | requestEntryList
  deriving Repr, DecidableEq

/-- Embedding of the REGISTRATION_RESULT branch of
`AccTelemetryWorker.run` (acc_backend.py lines 354-364): on success,
store the connection id, set `registered`, emit the connected status and
request track data and entry list; on failure, emit a status message
embedding the server-supplied error string and change nothing.  Returns
(new state, status messages, outbound requests). -/
def handleRegistrationResult (st : AccConnState) (r : RegResultView) :
    AccConnState × List String × List AccRequest :=
  if r.success then
    ({ connection_id := some r.connection_id, registered := true },
     ["Connected to ACC!"],
     [AccRequest.requestTrackData, AccRequest.requestEntryList])
  else
    (st, ["Connection failed: " ++ r.error], [])

/-- C6: a failed registration result leaves the state untouched (no
connection id stored, not registered) and surfaces the server-supplied
error string verbatim inside the emitted status message. -/
theorem registration_failure_surfaced (st : AccConnState)
    (r : RegResultView) (hfail : r.success = false) :
    handleRegistrationResult st r =
        (st, ["Connection failed: " ++ r.error], []) ∧
      (handleRegistrationResult st r).1.connection_id = st.connection_id ∧
      (handleRegistrationResult st r).1.registered = st.registered := by
  simp [handleRegistrationResult, hfail]

/-- Witness for C6: a "wrong password" rejection on the initial state. -/
theorem registration_failure_surfaced_witness :
    handleRegistrationResult ⟨none, false⟩ ⟨false, 7, "wrong password"⟩ =
        (⟨none, false⟩, ["Connection failed: " ++ "wrong password"], []) ∧
      (handleRegistrationResult ⟨none, false⟩
          ⟨false, 7, "wrong password"⟩).1.connection_id = none ∧
      (handleRegistrationResult ⟨none, false⟩
          ⟨false, 7, "wrong password"⟩).1.registered = false :=
  registration_failure_surfaced ⟨none, false⟩ ⟨false, 7, "wrong password"⟩
    rfl

/-- The unregistration packet built by
`AccTelemetryWorker._send_unregistration` (acc_backend.py lines
436-441): tag 9 followed by the 4-byte LE connection id. -/
def unregistration_packet (cid : Nat) : List Nat :=
  [9] ++ [cid % 256, cid / 256 % 256, cid / 65536 % 256,
          cid / 16777216 % 256]

/-- Socket operation performed during shutdown. -/
inductive SockAction : Type where
  | send : List Nat → SockAction
  | closeSock : SockAction
  deriving Repr, DecidableEq

/-- Embedding of the run loop's shutdown path (acc_backend.py lines
404-408): the `finally` block runs `if self.connection_id:
self._send_unregistration(sock)` and then `sock.close()`.  Python
truthiness makes the guard skip both `None` and id 0.  `send_ok` tells
whether `sock.sendto` succeeds; when it raises, the exception aborts the
`finally` block before `sock.close()` is reached.  Returns the socket
actions performed, in order, and whether the block completed without an
escaping exception. -/
def runLoopCleanup (connection_id : Option Nat) (send_ok : Bool) :
    List SockAction × Bool :=
  match connection_id with
  | none => ([SockAction.closeSock], true)
  | some cid =>
    if cid = 0 then ([SockAction.closeSock], true)
    else if send_ok then
      ([SockAction.send (unregistration_packet cid), SockAction.closeSock],
       true)
    else ([], false)

/-- C8: with a held connection id, a clean shutdown sends the unregister
packet for that id before closing the socket; but when `sock.sendto`
raises, the exception escapes the `finally` block and the socket is never
closed, contradicting the claim that the close happens even if the
unregistration send fails. -/
theorem cleanup_skips_close_on_send_failure :
    runLoopCleanup (some 42) true =
        ([SockAction.send (unregistration_packet 42), SockAction.closeSock],
         true) ∧
      runLoopCleanup (some 42) false = ([], false) ∧
      SockAction.closeSock ∉ (runLoopCleanup (some 42) false).1 := by
  refine ⟨rfl, rfl, ?_⟩
  decide

/-- Canonical sample dict built by `AccTelemetryWorker._handle_car_update`
(acc_backend.py lines 468-478).  `rpms`, `brake` and `throttle` are the
literal 0 in the source and are omitted here; position floats keep their
bit patterns. -/
structure AccSample where
  t : Rat
  lap_id : Nat
  x : Nat
  z : Nat
  speed : Nat
  gear : Int
  deriving Repr, DecidableEq

/-- Per-car lap bookkeeping of `AccTelemetryWorker`: the two dicts
`current_lap_samples` and `last_lap_count`, both keyed by car index. -/
structure AccLapState where
  current_lap_samples : Nat → Option (List AccSample)
  last_lap_count : Nat → Option Nat

/-- Initial bookkeeping (`__init__`): both dicts empty. -/
def accLapInit : AccLapState := ⟨fun _ => none, fun _ => none⟩

/-- Dict update for a single car index. -/
def dictSet {β : Type} (f : Nat → Option β) (i : Nat) (v : β) :
    Nat → Option β :=
  fun j => if j = i then some v else f j

/-- Embedding of `AccTelemetryWorker._handle_car_update` (acc_backend.py
lines 457-492).  `now` is the `time.time()` stamp of the call.  Returns
the updated bookkeeping and the records handed to `lap_completed` during
the call.  Source order: initialize both dicts on a first-seen car,
append the freshly built sample to the car's buffer, then, if the packet
lap count exceeds the remembered one, emit the (non-empty) buffer keyed
by the *new* lap count and reset the buffer to hold the arriving sample
again. -/
def handle_car_update (st : AccLapState) (now : Rat) (cu : CarUpdateP) :
    AccLapState × List (Nat × List AccSample) :=
  let car_index := cu.car_index
  let laps := cu.laps
  let st : AccLapState :=
    match st.current_lap_samples car_index with
    | none =>
      { current_lap_samples := dictSet st.current_lap_samples car_index [],
        last_lap_count := dictSet st.last_lap_count car_index laps }
    | some _ => st
  let sample : AccSample :=
    { t := now, lap_id := laps, x := cu.world_pos_x, z := cu.world_pos_z,
      speed := cu.kmh, gear := cu.gear }
  let buf := (st.current_lap_samples car_index).getD [] ++ [sample]
  let st : AccLapState :=
    { st with
      current_lap_samples := dictSet st.current_lap_samples car_index buf }
  if (st.last_lap_count car_index).getD 0 < laps then
    let emitted := if buf.isEmpty then [] else [(laps, buf)]
    ({ current_lap_samples :=
         dictSet st.current_lap_samples car_index [sample],
       last_lap_count := dictSet st.last_lap_count car_index laps },
     emitted)
  else (st, [])

/-- Feed a list of `(time, car_update)` events through
`_handle_car_update`, collecting the emitted lap records in order. -/
def runCarUpdates (st : AccLapState) :
    List (Rat × CarUpdateP) → AccLapState × List (Nat × List AccSample)
  | [] => (st, [])
  | (now, cu) :: rest =>
    let r := handle_car_update st now cu
    let rr := runCarUpdates r.1 rest
    (rr.1, r.2 ++ rr.2)

/-- C2: an emitted completed-lap record should contain exactly the
samples that arrived with the lap id it is keyed by.  `LapBuffer` obeys
this, but `_handle_car_update` does not: for one car sending lap counts
`[1,1,2]`, the single emitted record is keyed by the new lap id 2 while
holding the two lap-1 samples plus the lap-2 boundary sample, and that
boundary sample is simultaneously kept in the new lap's buffer. -/
theorem udp_lap_record_mixes_lap_ids :
    (runCarUpdates accLapInit
        [(0, { laps := 1, world_pos_x := 10 }),
         (1, { laps := 1, world_pos_x := 20 }),
         (2, { laps := 2, world_pos_x := 30 })]).2 =
      [(2, [{ t := 0, lap_id := 1, x := 10, z := 0, speed := 0, gear := 0 },
            { t := 1, lap_id := 1, x := 20, z := 0, speed := 0, gear := 0 },
            { t := 2, lap_id := 2, x := 30, z := 0, speed := 0,
              gear := 0 }])] ∧
      (runCarUpdates accLapInit
        [(0, { laps := 1, world_pos_x := 10 }),
         (1, { laps := 1, world_pos_x := 20 }),
         (2, { laps := 2, world_pos_x := 30 })]).1.current_lap_samples 0 =
        some [{ t := 2, lap_id := 2, x := 30, z := 0, speed := 0,
                gear := 0 }] := by
  constructor <;> rfl

/-! ## TORCS adapter (`telemetry/backends/torcs_backend.py`)

Distances and times are embedded as `Rat`.  The circular-track x/z
visualization coordinates of `_build_sample` (trigonometric
approximations) are display-only and outside the embedding. -/

/-- Lap-tracking state of `TorcsTelemetryWorker`. -/
structure TorcsState where
  current_lap_id : Nat
  last_dist_raced : Rat
  deriving Repr, DecidableEq

/-- Sample dict built by `TorcsTelemetryWorker._build_sample`
(torcs_backend.py lines 163-202), restricted to its non-visualization
fields; `brake`, `throttle` and the tire fields are literal zeros. -/
structure TorcsSample where
  lap_id : Nat
  t : Rat
  speed : Rat
  gear : Int
  rpms : Nat
  deriving Repr, DecidableEq

/-- Embedding of the lap-change detection in `TorcsTelemetryWorker.run`
(torcs_backend.py lines 93-98): the lap counter increments exactly when
the cumulative `distRaced` drops more than 100 below the previous tick's
value; `last_dist_raced` always becomes the current value. -/
def torcsDetectLap (st : TorcsState) (dist_raced : Rat) : TorcsState :=
  let lap :=
    if dist_raced < st.last_dist_raced - 100 then st.current_lap_id + 1
    else st.current_lap_id
  { current_lap_id := lap, last_dist_raced := dist_raced }

/-- Embedding of `TorcsTelemetryWorker._build_sample`: speed is
`speedX * 3.6` km/h and the sample carries the worker's current lap id. -/
def torcs_build_sample (lap_id : Nat) (elapsed speedX : Rat) (gear : Int)
    (rpm : Nat) : TorcsSample :=
  { lap_id := lap_id, t := elapsed, speed := speedX * (36 / 10),
    gear := gear, rpms := rpm }

/-- One tick of the `TorcsTelemetryWorker.run` loop (lines 93-101):
detect a lap change from `distRaced`, then build the sample from the
updated state. -/
def torcsTick (st : TorcsState) (elapsed dist_raced speedX : Rat)
    (gear : Int) (rpm : Nat) : TorcsState × TorcsSample :=
  let st := torcsDetectLap st dist_raced
  (st, torcs_build_sample st.current_lap_id elapsed speedX gear rpm)

/-- C9: per tick, the TORCS lap counter increments by exactly one when
the cumulative distance drops below the previous value minus 100, is
unchanged otherwise, and the emitted sample carries the updated counter
as its lap id. -/
theorem torcs_lap_heuristic (st : TorcsState)
    (elapsed dist_raced speedX : Rat) (gear : Int) (rpm : Nat) :
    (dist_raced < st.last_dist_raced - 100 →
        (torcsTick st elapsed dist_raced speedX gear rpm).1.current_lap_id
          = st.current_lap_id + 1) ∧
      (¬ dist_raced < st.last_dist_raced - 100 →
        (torcsTick st elapsed dist_raced speedX gear rpm).1.current_lap_id
          = st.current_lap_id) ∧
      (torcsTick st elapsed dist_raced speedX gear rpm).2.lap_id =
        (torcsTick st elapsed dist_raced speedX gear rpm).1.current_lap_id
    := by
  unfold torcsTick torcsDetectLap torcs_build_sample
  refine ⟨fun h => ?_, fun h => ?_, rfl⟩ <;> simp [h]

/-- Witness for C9: a wrap from distance 500 back to 10 on lap 3. -/
theorem torcs_lap_heuristic_witness :
    (torcsTick ⟨3, 500⟩ 0 10 0 0 0).1.current_lap_id = 3 + 1 ∧
      (torcsTick ⟨3, 500⟩ 0 10 0 0 0).2.lap_id =
        (torcsTick ⟨3, 500⟩ 0 10 0 0 0).1.current_lap_id :=
  ⟨(torcs_lap_heuristic ⟨3, 500⟩ 0 10 0 0 0).1 (by norm_num),
   (torcs_lap_heuristic ⟨3, 500⟩ 0 10 0 0 0).2.2⟩

/-! ## Registration packet (`AccTelemetryWorker._send_registration`) -/

/-- `struct.pack` with format less-than H: 2-byte LE encoding.  The
source raises for values at or above 65536; theorems below assume the
in-range case. -/
def packU16 (n : Nat) : List Nat := [n % 256, n / 256 % 256]

/-- `struct.pack` with format less-than I: 4-byte LE encoding. -/
def packU32 (n : Nat) : List Nat :=
  [n % 256, n / 256 % 256, n / 65536 % 256, n / 16777216 % 256]

/-- Embedding of `AccTelemetryWorker._send_registration` (acc_backend.py
lines 410-434), building the registration datagram by sequential
appends: tag byte 1 (REGISTER_COMMAND_APPLICATION), protocol version 4,
length-prefixed display name bytes, length-prefixed connection password
bytes, 4-byte LE update interval 100 ms, and the empty command password's
2-byte length prefix.  Strings are taken as their UTF-8 byte lists. -/
def send_registration (name_bytes pwd_bytes : List Nat) : List Nat :=
  let msg : List Nat := [1]
  let msg := msg ++ [4]
  let msg := msg ++ packU16 name_bytes.length
  let msg := msg ++ name_bytes
  let msg := msg ++ packU16 pwd_bytes.length
  let msg := msg ++ pwd_bytes
  let msg := msg ++ packU32 100
  let msg := msg ++ packU16 0
  msg

/-- Modelled from the spec: a string encoded as a 2-byte LE length prefix
followed by its UTF-8 bytes (spec sections 4.1 and 6). -/
def lengthPrefixedBytes (s : List Nat) : List Nat := packU16 s.length ++ s

/-- `read_string` at the start of an embedded length-prefixed string
recovers exactly that string and the offset just past it. -/
theorem read_string_after (pre s post : List Nat) (h : s.length < 65536) :
    read_string (pre ++ (packU16 s.length ++ (s ++ post))) pre.length =
      (s, pre.length + 2 + s.length) := by
  have hlen : (pre ++ (packU16 s.length ++ (s ++ post))).length =
      pre.length + (2 + (s.length + post.length)) := by
    simp [packU16]; omega
  have hb0 : byteD (pre ++ (packU16 s.length ++ (s ++ post))) pre.length =
      s.length % 256 := by
    rw [byteD, List.get?_eq_getElem?,
      List.getElem?_append_right (by omega)]
    simp [packU16]
  have hb1 : byteD (pre ++ (packU16 s.length ++ (s ++ post)))
      (pre.length + 1) = s.length / 256 % 256 := by
    rw [byteD, List.get?_eq_getElem?,
      List.getElem?_append_right (by omega)]
    simp [packU16]
  have hn : s.length % 256 + 256 * (s.length / 256 % 256) = s.length := by
    omega
  have hdrop : (pre ++ (packU16 s.length ++ (s ++ post))).drop
      (pre.length + 2) = s ++ post := by
    have h2 : (pre ++ packU16 s.length).length = pre.length + 2 := by
      simp [packU16]
    calc (pre ++ (packU16 s.length ++ (s ++ post))).drop (pre.length + 2)
        = ((pre ++ packU16 s.length) ++ (s ++ post)).drop
            ((pre ++ packU16 s.length).length) := by
          rw [h2, List.append_assoc]
      _ = s ++ post := List.drop_left _ _
  rw [read_string, if_neg (by omega), hb0, hb1, hn,
    if_neg (by omega), hdrop, List.take_left]

/-- C7: the registration packet is, in order, the tag byte, the protocol
version byte, the length-prefixed display name, the length-prefixed
connection password, the 4-byte LE update interval in milliseconds, and
the length-prefixed (empty) command password; parsing the packet back
with the parser's own `read_string` recovers the name at offset 2 and the
password right after it. -/
theorem registration_packet_layout (name pwd : List Nat)
    (hname : name.length < 65536) (hpwd : pwd.length < 65536) :
    send_registration name pwd =
        [1] ++ [4] ++ lengthPrefixedBytes name ++ lengthPrefixedBytes pwd
          ++ packU32 100 ++ lengthPrefixedBytes [] ∧
      read_string (send_registration name pwd) 2 = (name, 4 + name.length) ∧
      read_string (send_registration name pwd) (4 + name.length) =
        (pwd, 4 + name.length + 2 + pwd.length) := by
  refine ⟨?_, ?_, ?_⟩
  · simp [send_registration, lengthPrefixedBytes, List.append_assoc]
  · have e := read_string_after [1, 4] name
        (packU16 pwd.length ++ (pwd ++ (packU32 100 ++ packU16 0))) hname
    have eassoc : send_registration name pwd =
        [1, 4] ++ (packU16 name.length ++ (name ++
          (packU16 pwd.length ++ (pwd ++ (packU32 100 ++ packU16 0))))) := by
      simp [send_registration, List.append_assoc]
    rw [eassoc]
    simpa using e
  · have e := read_string_after ([1, 4] ++ packU16 name.length ++ name) pwd
        (packU32 100 ++ packU16 0) hpwd
    have hpre : ([1, 4] ++ packU16 name.length ++ name).length =
        4 + name.length := by simp [packU16]; omega
    rw [hpre] at e
    have eassoc : send_registration name pwd =
        ([1, 4] ++ packU16 name.length ++ name) ++
          (packU16 pwd.length ++ (pwd ++ (packU32 100 ++ packU16 0))) := by
      simp [send_registration, List.append_assoc]
    rw [eassoc]
    simpa using e

/-- Witness for C7: display name bytes [65], password bytes [66, 67]. -/
theorem registration_packet_layout_witness :
    send_registration [65] [66, 67] =
        [1] ++ [4] ++ lengthPrefixedBytes [65] ++
          lengthPrefixedBytes [66, 67] ++ packU32 100 ++
          lengthPrefixedBytes [] ∧
      read_string (send_registration [65] [66, 67]) 2 =
        ([65], 4 + List.length [65]) ∧
      read_string (send_registration [65] [66, 67])
          (4 + List.length [65]) =
        ([66, 67], 4 + List.length [65] + 2 + List.length [66, 67]) :=
  registration_packet_layout [65] [66, 67] (by decide) (by decide)
